import Mathlib

/-!
# Verification of the esplora-cli command dispatcher

Shallow embedding of `src/main.rs`: a CLI front end over an Esplora
blockchain-API client.  The dispatcher parses textual arguments into
semantic types, performs one client call per command, and prints a
formatted result.  External library behaviour (the `esplora_client`
HTTP client, `bitcoin` consensus encode/decode) is modelled by
explicit function parameters and by record types carrying the data the
dispatcher actually observes.
-/

namespace EsploraCli

/-! ## Hex primitives

Model of the hex parsing/formatting used by `Txid`/`BlockHash`
`FromStr` and `Display` (the `hex-conservative` crate as used by
rust-bitcoin): parsing accepts both upper- and lower-case hex digits,
formatting always emits lower case.  -/

/-- Value of one hex digit, accepting both cases (`0-9`, `a-f`,
`A-F`), as the Rust hex parser does. -/
def hexVal (c : Char) : Option Nat :=
  if 48 ≤ c.toNat ∧ c.toNat ≤ 57 then some (c.toNat - 48)
  else if 97 ≤ c.toNat ∧ c.toNat ≤ 102 then some (c.toNat - 87)
  else if 65 ≤ c.toNat ∧ c.toNat ≤ 70 then some (c.toNat - 55)
  else none

/-- Lower-case hex digit for a value below 16 (what Rust `Display`
for hash types emits). -/
def hexChar (n : Nat) : Char :=
  if n < 10 then Char.ofNat (48 + n) else Char.ofNat (87 + n)

/-- A lower-case hex digit (`0-9` or `a-f`). -/
def isLowerHex (c : Char) : Bool :=
  (decide (48 ≤ c.toNat) && decide (c.toNat ≤ 57)) ||
  (decide (97 ≤ c.toNat) && decide (c.toNat ≤ 102))

/-- Decode a list of characters two at a time into bytes; fails on an
odd length or a non-hex character (the behaviour of the Rust
hex-to-bytes iterator). -/
def hexDecodePairs : List Char → Option (List Nat)
  | [] => some []
  | [_] => none
  | c1 :: c2 :: rest =>
    match hexVal c1, hexVal c2, hexDecodePairs rest with
    | some h, some l, some bs => some ((16 * h + l) :: bs)
    | _, _, _ => none

/-- Encode bytes as lower-case hex characters. -/
def hexEncodeBytes : List Nat → List Char
  | [] => []
  | b :: bs => hexChar (b / 16) :: hexChar (b % 16) :: hexEncodeBytes bs

/-! ## Hashes (Txid, BlockHash)

A 256-bit hash is 32 bytes.  `FromStr` requires exactly 64 hex
characters and stores the bytes reversed relative to the displayed
order (`DISPLAY_BACKWARD` for `Txid`/`BlockHash`); `Display` reverses
back and prints lower-case hex. -/

/-- `Txid::from_str` / `BlockHash::from_str`: 64 hex characters
(either case), stored in reversed byte order. -/
def parseHash (s : String) : Option (List Nat) :=
  if s.data.length = 64 then (hexDecodePairs s.data).map List.reverse else none

/-- `Display`/`Debug` for `Txid`/`BlockHash`: reverse the bytes back
and print lower-case hex. -/
def formatHash (h : List Nat) : String := ⟨hexEncodeBytes h.reverse⟩

/-! ## Decimal parsing

Model of Rust's `str::parse` for the unsigned integer types (`u32`,
`u64`, `usize`): an optional leading `+`, then one or more decimal
digits, rejecting values above the type's maximum.  (Rust checks
overflow while accumulating; since accumulation is monotone this is
equivalent to a final bound check.) -/

def decDigits : List Char → Nat → Option Nat
  | [], acc => some acc
  | c :: cs, acc =>
    if 48 ≤ c.toNat ∧ c.toNat ≤ 57 then
      decDigits cs (acc * 10 + (c.toNat - 48))
    else none

/-- `str::parse::<uN>()` with maximum value `max`. -/
def parseUnsigned (max : Nat) (s : String) : Option Nat :=
  let core : List Char → Option Nat := fun cs =>
    if cs = [] then none
    else (decDigits cs 0).bind fun n => if n ≤ max then some n else none
  match s.data with
  | '+' :: cs => core cs
  | cs => core cs

/-- `str::parse::<u32>()`. -/
def parseU32 (s : String) : Option Nat := parseUnsigned (2 ^ 32 - 1) s

/-- `str::parse::<u64>()`. -/
def parseU64 (s : String) : Option Nat := parseUnsigned (2 ^ 64 - 1) s

/-- `str::parse::<usize>()` (64-bit target). -/
def parseUsize (s : String) : Option Nat := parseUnsigned (2 ^ 64 - 1) s

/-! ## Domain records

The dispatcher only ever `Debug`-prints the records returned by the
client (other than `Transaction`, `Block` and the script-hash history
entries, whose structure it inspects).  Records whose content the
dispatcher never examines are modelled by their `Debug` rendering. -/

/-- `bitcoin::Transaction`, modelled by the data the dispatcher
observes: its consensus serialization, its computed txid, and whether
it is a coinbase transaction. -/
structure Transaction where
  serBytes : List Nat
  txid : List Nat
  coinbase : Bool
deriving DecidableEq

/-- `bitcoin::consensus::encode::serialize_hex`: lower-case hex of the
consensus serialization. -/
def serializeHex (tx : Transaction) : String := ⟨hexEncodeBytes tx.serBytes⟩

/-- `bitcoin::consensus::encode::deserialize_hex`: decode the hex
string to bytes, then decode a transaction from the bytes.  The byte
decoder is external (`decodeTx`). -/
def deserializeHex (decodeTx : List Nat → Option Transaction) (s : String) :
    Option Transaction :=
  (hexDecodePairs s.data).bind decodeTx

/-- `esplora_client::Tx` (script-hash history entry); the dispatcher
prints only its `txid` field. -/
structure TxSummary where
  txid : List Nat
deriving DecidableEq

/-- `bitcoin::Block`; the dispatcher inspects only `txdata`. -/
structure Block where
  txdata : List Transaction
deriving DecidableEq

/-- `esplora_client::TxInfo`, by its `Debug` rendering. -/
structure TxInfo where
  debug : String
deriving DecidableEq

/-- `esplora_client::TxStatus`, by its `Debug` rendering. -/
structure TxStatus where
  debug : String
deriving DecidableEq

/-- `bitcoin::block::Header`, by its `Debug` rendering. -/
structure Header where
  debug : String
deriving DecidableEq

/-- `esplora_client::BlockStatus`, by its `Debug` rendering. -/
structure BlockStatus where
  debug : String
deriving DecidableEq

/-- `esplora_client::MerkleProof`, by its `Debug` rendering. -/
structure MerkleProof where
  debug : String
deriving DecidableEq

/-- `bitcoin::MerkleBlock`, by its `Debug` rendering. -/
structure MerkleBlock where
  debug : String
deriving DecidableEq

/-- `esplora_client::OutputStatus`, by its `Debug` rendering. -/
structure OutputStatus where
  debug : String
deriving DecidableEq

/-- The fee-estimates map, by its `Debug` rendering. -/
structure FeeEstimates where
  debug : String
deriving DecidableEq

/-- `esplora_client::BlockSummary`, by its `Debug` rendering. -/
structure BlockSummary where
  debug : String
deriving DecidableEq

/-- `bitcoin::Address<NetworkUnchecked>`: a syntactically parsed
address.  `network` is the network encoded in the address string;
`scriptPubkey` the script it denotes; `checked` the phantom marker
distinguishing `NetworkUnchecked` (`false`) from `NetworkChecked`
(`true`). -/
structure Address where
  network : String
  scriptPubkey : List Nat
  checked : Bool
deriving DecidableEq

/-- `Address::assume_checked`: marks the address checked without any
validation of its network. -/
def Address.assumeChecked (a : Address) : Address := { a with checked := true }

/-- `Address::script_pubkey`. -/
def Address.script_pubkey (a : Address) : List Nat := a.scriptPubkey

/-! ## The client

`esplora_client::BlockingClient`, modelled as a record of responses:
one field per method used by `main`, with the result type of the
corresponding Rust method (`Result<T, Error>` as `Except String T`,
`Result<Option<T>, Error>` as `Except String (Option T)`; the error
is modelled by its display message). -/

structure Client where
  get_tx : List Nat → Except String (Option Transaction)
  get_tx_info : List Nat → Except String (Option TxInfo)
  get_txid_at_block_index : List Nat → Nat → Except String (Option (List Nat))
  get_tx_status : List Nat → Except String TxStatus
  get_header_by_hash : List Nat → Except String Header
  get_block_status : List Nat → Except String BlockStatus
  get_block_by_hash : List Nat → Except String (Option Block)
  get_merkle_proof : List Nat → Except String MerkleProof
  get_merkle_block : List Nat → Except String MerkleBlock
  get_output_status : List Nat → Nat → Except String (Option OutputStatus)
  broadcast : Transaction → Except String Unit
  get_height : Except String Nat
  get_tip_hash : Except String (List Nat)
  get_block_hash : Nat → Except String (List Nat)
  get_fee_estimates : Except String FeeEstimates
  scripthash_txs : List Nat → Option (List Nat) → Except String (List TxSummary)
  get_blocks : Option Nat → Except String (List BlockSummary)

/-- One observable client/network call, recording the operation and
the arguments passed to it. -/
inductive Call
  | getTx (txid : List Nat)
  | getTxInfo (txid : List Nat)
  | getTxidAtBlockIndex (hash : List Nat) (index : Nat)
  | getTxStatus (txid : List Nat)
  | getHeaderByHash (hash : List Nat)
  | getBlockStatus (hash : List Nat)
  | getBlockByHash (hash : List Nat)
  | getMerkleProof (txid : List Nat)
  | getMerkleBlock (txid : List Nat)
  | getOutputStatus (txid : List Nat) (index : Nat)
  | broadcastTx (tx : Transaction)
  | getHeight
  | getTipHash
  | getBlockHash (height : Nat)
  | getFeeEstimates
  | scripthashTxs (script : List Nat) (lastSeen : Option (List Nat))
  | getBlocks (height : Option Nat)
deriving DecidableEq

/-! ## The dispatcher -/

/-- The `Commands` enum of `main.rs`.  Arguments are the raw strings
the CLI hands over, except for `getScriptHashTxs` whose address is
parsed by clap into `Address<NetworkUnchecked>` before `main`'s
`match` runs. -/
inductive Commands
  | getTx (id : String)
  | getTxInfo (id : String)
  | getTxAtBlockIndex (block_hash : String) (index : String)
  | getTxStatus (id : String)
  | getHeaderByHash (block_hash : String)
  | getBlockStatus (block_hash : String)
  | getBlock (block_hash : String)
  | getMerkleProof (id : String)
  | getMerkleBlock (id : String)
  | getOutputStatus (id : String) (index : String)
  | broadcast (transaction_hex : String)
  | getHeight
  | getTipHash
  | getBlockHash (height : String)
  | getFeeEstimates
  | getScriptHashTxs (address : Address) (last_seen : Option String)
  | getBlocks (height : Option String)
deriving DecidableEq

/-- How one invocation of `main` ends: normal return (`Ok(())`), an
error propagated by `?`/`anyhow` (returned as `Err`), or a Rust
panic (from `.unwrap()`/`.expect()`). -/
inductive Outcome
  | ok
  | err (msg : String)
  | panicked (msg : String)
deriving DecidableEq

/-- The observable behaviour of one invocation: how it ended, the
lines printed on stdout, and the client calls made, in order. -/
structure Run where
  outcome : Outcome
  stdout : List String
  calls : List Call
deriving DecidableEq

/-- `{:#?}` applied to a `String` (Debug rendering: quoted). -/
def debugStr (s : String) : String := "\x22" ++ s ++ "\x22"

/-- `{:#?}` applied to a `Txid`/`BlockHash` (Debug prints the hex). -/
def debugTxid (t : List Nat) : String := formatHash t

/-- `{:#?}` applied to a `Vec<BlockSummary>` (one `println!`, so one
stdout entry, containing every element's rendering). -/
def debugVec (l : List BlockSummary) : String :=
  "[" ++ String.intercalate ", " (l.map (fun b => b.debug)) ++ "]"

/-- Panic message of `Option::unwrap`/`Result::unwrap` on an absent
value. -/
def unwrapFailMsg : String := "called unwrap on a None or Err value"

/-- The tail of the `GetScriptHashTxs` arm, after the
`last_seen.map(|s| Txid::from_str(&s).unwrap())` cursor step:
`assume_checked` the address, query its script pubkey, print each
returned entry's txid. -/
def scriptHashArm (client : Client) (address : Address)
    (last_txid : Option (List Nat)) : Run :=
  let addr := address.assumeChecked
  match client.scripthash_txs addr.script_pubkey last_txid with
  | .error e => ⟨.err e, [], [.scripthashTxs addr.script_pubkey last_txid]⟩
  | .ok txs =>
    ⟨.ok, txs.map (fun tx => debugTxid tx.txid),
      [.scripthashTxs addr.script_pubkey last_txid]⟩

/-- The tail of the `GetBlocks` arm, after the
`height.map(|s| s.parse::<u32>().unwrap())` step. -/
def getBlocksArm (client : Client) (h : Option Nat) : Run :=
  match client.get_blocks h with
  | .error e => ⟨.err e, [], [.getBlocks h]⟩
  | .ok res => ⟨.ok, [debugVec res], [.getBlocks h]⟩

/-- The body of `main`'s `match cli.command`, as a function of the
external transaction decoder, the client and the command.  Each arm
mirrors the source: parse the string arguments in order (a `?` on a
parse failure returns the error; an `.unwrap()` panics), perform the
one client call, then print. -/
def dispatch (decodeTx : List Nat → Option Transaction) (client : Client) :
    Commands → Run
  | .getTx id =>
    match parseHash id with
    | none => ⟨.err "invalid txid", [], []⟩
    | some txid =>
      match client.get_tx txid with
      | .error e => ⟨.err e, [], [.getTx txid]⟩
      | .ok none => ⟨.err "None", [], [.getTx txid]⟩
      | .ok (some tx) => ⟨.ok, [debugStr (serializeHex tx)], [.getTx txid]⟩
  | .getTxInfo id =>
    match parseHash id with
    | none => ⟨.err "invalid txid", [], []⟩
    | some txid =>
      match client.get_tx_info txid with
      | .error e => ⟨.err e, [], [.getTxInfo txid]⟩
      | .ok none => ⟨.err "None", [], [.getTxInfo txid]⟩
      | .ok (some info) => ⟨.ok, [info.debug], [.getTxInfo txid]⟩
  | .getTxAtBlockIndex block_hash index =>
    match parseHash block_hash with
    | none => ⟨.err "invalid block hash", [], []⟩
    | some hash =>
      match parseUsize index with
      | none => ⟨.err "invalid digit", [], []⟩
      | some i =>
        match client.get_txid_at_block_index hash i with
        | .error e => ⟨.err e, [], [.getTxidAtBlockIndex hash i]⟩
        | .ok none => ⟨.err "None", [], [.getTxidAtBlockIndex hash i]⟩
        | .ok (some txid) =>
          ⟨.ok, [debugTxid txid], [.getTxidAtBlockIndex hash i]⟩
  | .getTxStatus id =>
    match parseHash id with
    | none => ⟨.err "invalid txid", [], []⟩
    | some tx_id =>
      match client.get_tx_status tx_id with
      | .error e => ⟨.err e, [], [.getTxStatus tx_id]⟩
      | .ok res => ⟨.ok, [res.debug], [.getTxStatus tx_id]⟩
  | .getHeaderByHash block_hash =>
    match parseHash block_hash with
    | none => ⟨.err "invalid block hash", [], []⟩
    | some hash =>
      match client.get_header_by_hash hash with
      | .error e => ⟨.err e, [], [.getHeaderByHash hash]⟩
      | .ok res => ⟨.ok, [res.debug], [.getHeaderByHash hash]⟩
  | .getBlockStatus block_hash =>
    match parseHash block_hash with
    | none => ⟨.err "invalid block hash", [], []⟩
    | some hash =>
      match client.get_block_status hash with
      | .error e => ⟨.err e, [], [.getBlockStatus hash]⟩
      | .ok res => ⟨.ok, [res.debug], [.getBlockStatus hash]⟩
  | .getBlock block_hash =>
    match parseHash block_hash with
    | none => ⟨.err "invalid block hash", [], []⟩
    | some hash =>
      match client.get_block_by_hash hash with
      | .error e => ⟨.err e, [], [.getBlockByHash hash]⟩
      | .ok none => ⟨.ok, [], [.getBlockByHash hash]⟩
      | .ok (some block) =>
        ⟨.ok,
          (block.txdata.filter (fun tx => !tx.coinbase)).map
            (fun tx => debugTxid tx.txid),
          [.getBlockByHash hash]⟩
  | .getMerkleProof id =>
    match parseHash id with
    | none => ⟨.err "invalid txid", [], []⟩
    | some tx_id =>
      match client.get_merkle_proof tx_id with
      | .error e => ⟨.err e, [], [.getMerkleProof tx_id]⟩
      | .ok res => ⟨.ok, [res.debug], [.getMerkleProof tx_id]⟩
  | .getMerkleBlock id =>
    match parseHash id with
    | none => ⟨.err "invalid txid", [], []⟩
    | some tx_id =>
      match client.get_merkle_block tx_id with
      | .error e => ⟨.err e, [], [.getMerkleBlock tx_id]⟩
      | .ok res => ⟨.ok, [res.debug], [.getMerkleBlock tx_id]⟩
  | .getOutputStatus id index =>
    match parseHash id with
    | none => ⟨.err "invalid txid", [], []⟩
    | some tx_id =>
      match parseU64 index with
      | none => ⟨.err "invalid digit", [], []⟩
      | some i =>
        match client.get_output_status tx_id i with
        | .error e => ⟨.err e, [], [.getOutputStatus tx_id i]⟩
        | .ok none => ⟨.err "None", [], [.getOutputStatus tx_id i]⟩
        | .ok (some res) => ⟨.ok, [res.debug], [.getOutputStatus tx_id i]⟩
  | .broadcast transaction_hex =>
    match deserializeHex decodeTx transaction_hex with
    | none => ⟨.err "invalid tx hex", [], []⟩
    | some tx =>
      match client.broadcast tx with
      | .error e => ⟨.err e, [], [.broadcastTx tx]⟩
      | .ok _ => ⟨.ok, [], [.broadcastTx tx]⟩
  | .getHeight =>
    match client.get_height with
    | .error e => ⟨.err e, [], [.getHeight]⟩
    | .ok res => ⟨.ok, [toString res], [.getHeight]⟩
  | .getTipHash =>
    match client.get_tip_hash with
    | .error e => ⟨.err e, [], [.getTipHash]⟩
    | .ok res => ⟨.ok, [debugTxid res], [.getTipHash]⟩
  | .getBlockHash height =>
    match parseU32 height with
    | none => ⟨.err "invalid digit", [], []⟩
    | some h =>
      match client.get_block_hash h with
      | .error e => ⟨.err e, [], [.getBlockHash h]⟩
      | .ok res => ⟨.ok, [debugTxid res], [.getBlockHash h]⟩
  | .getFeeEstimates =>
    match client.get_fee_estimates with
    | .error e => ⟨.err e, [], [.getFeeEstimates]⟩
    | .ok res => ⟨.ok, [res.debug], [.getFeeEstimates]⟩
  | .getScriptHashTxs address last_seen =>
    match last_seen with
    | none => scriptHashArm client address none
    | some s =>
      match parseHash s with
      | none => ⟨.panicked unwrapFailMsg, [], []⟩
      | some t => scriptHashArm client address (some t)
  | .getBlocks height =>
    match height with
    | none => getBlocksArm client none
    | some s =>
      match parseU32 s with
      | none => ⟨.panicked unwrapFailMsg, [], []⟩
      | some n => getBlocksArm client (some n)

/-- The `Cli` struct: the subcommand and the `--network` base URL
(an `Option` with a clap default, so in practice always present). -/
structure Cli where
  command : Commands
  network : Option String

/-- `fn main`: unwrap the network URL (`.expect` panics when absent),
build the client from it, run the command match. -/
def runMain (decodeTx : List Nat → Option Transaction)
    (mkClient : String → Client) (cli : Cli) : Run :=
  match cli.network with
  | none => ⟨.panicked "must set esplora url", [], []⟩
  | some url => dispatch decodeTx (mkClient url) cli.command

/-- Process exit code for each way `main` can end: `Ok(())` exits 0,
`Err(e)` exits 1 (`Termination` for `Result`), a panic exits 101. -/
def exitCode : Outcome → Nat
  | .ok => 0
  | .err _ => 1
  | .panicked _ => 101

/-- What the process writes to stderr for each way `main` can end:
`Err(e)` prints `Error: ` and the error's message, a panic prints the
panic message. -/
def errStream : Outcome → List String
  | .ok => []
  | .err m => ["Error: " ++ m]
  | .panicked m => [m]

/-- All string arguments of a command parse into their semantic
types (for `broadcast`, including the consensus decode performed by
`deserialize_hex`). -/
def argsOk (decodeTx : List Nat → Option Transaction) : Commands → Bool
  | .getTx id => (parseHash id).isSome
  | .getTxInfo id => (parseHash id).isSome
  | .getTxAtBlockIndex h i => (parseHash h).isSome && (parseUsize i).isSome
  | .getTxStatus id => (parseHash id).isSome
  | .getHeaderByHash h => (parseHash h).isSome
  | .getBlockStatus h => (parseHash h).isSome
  | .getBlock h => (parseHash h).isSome
  | .getMerkleProof id => (parseHash id).isSome
  | .getMerkleBlock id => (parseHash id).isSome
  | .getOutputStatus id i => (parseHash id).isSome && (parseU64 i).isSome
  | .broadcast hx => (deserializeHex decodeTx hx).isSome
  | .getHeight => true
  | .getTipHash => true
  | .getBlockHash h => (parseU32 h).isSome
  | .getFeeEstimates => true
  | .getScriptHashTxs _ ls =>
    match ls with
    | none => true
    | some s => (parseHash s).isSome
  | .getBlocks hs =>
    match hs with
    | none => true
    | some s => (parseU32 s).isSome

/-- Two clients that answer every request identically. -/
def ClientEq (c1 c2 : Client) : Prop :=
  (∀ t, c1.get_tx t = c2.get_tx t) ∧
  (∀ t, c1.get_tx_info t = c2.get_tx_info t) ∧
  (∀ h i, c1.get_txid_at_block_index h i = c2.get_txid_at_block_index h i) ∧
  (∀ t, c1.get_tx_status t = c2.get_tx_status t) ∧
  (∀ h, c1.get_header_by_hash h = c2.get_header_by_hash h) ∧
  (∀ h, c1.get_block_status h = c2.get_block_status h) ∧
  (∀ h, c1.get_block_by_hash h = c2.get_block_by_hash h) ∧
  (∀ t, c1.get_merkle_proof t = c2.get_merkle_proof t) ∧
  (∀ t, c1.get_merkle_block t = c2.get_merkle_block t) ∧
  (∀ t i, c1.get_output_status t i = c2.get_output_status t i) ∧
  (∀ tx, c1.broadcast tx = c2.broadcast tx) ∧
  c1.get_height = c2.get_height ∧
  c1.get_tip_hash = c2.get_tip_hash ∧
  (∀ h, c1.get_block_hash h = c2.get_block_hash h) ∧
  c1.get_fee_estimates = c2.get_fee_estimates ∧
  (∀ s l, c1.scripthash_txs s l = c2.scripthash_txs s l) ∧
  (∀ h, c1.get_blocks h = c2.get_blocks h)

/-! ## Concrete fixtures -/

/-- The all-zero 64-character hex string (a valid txid/block hash). -/
def zeros64 : String := ⟨List.replicate 64 '0'⟩

/-- The hash `zeros64` denotes. -/
def zeroHash : List Nat := List.replicate 32 0

/-- An external consensus decoder that accepts nothing. -/
def decodeTxNone : List Nat → Option Transaction := fun _ => none

/-- A concrete transaction. -/
def tx0 : Transaction := ⟨[1, 0], List.replicate 32 7, false⟩

/-- A concrete coinbase transaction. -/
def txCoinbase : Transaction := ⟨[2, 0], List.replicate 32 9, true⟩

/-- A concrete block: one coinbase plus one ordinary transaction. -/
def block0 : Block := ⟨[txCoinbase, tx0]⟩

/-- A client whose optional-result operations all report the resource
absent, and whose other operations succeed. -/
def noneClient : Client where
  get_tx := fun _ => .ok none
  get_tx_info := fun _ => .ok none
  get_txid_at_block_index := fun _ _ => .ok none
  get_tx_status := fun _ => .ok ⟨"TxStatus"⟩
  get_header_by_hash := fun _ => .ok ⟨"Header"⟩
  get_block_status := fun _ => .ok ⟨"BlockStatus"⟩
  get_block_by_hash := fun _ => .ok none
  get_merkle_proof := fun _ => .ok ⟨"MerkleProof"⟩
  get_merkle_block := fun _ => .ok ⟨"MerkleBlock"⟩
  get_output_status := fun _ _ => .ok none
  broadcast := fun _ => .ok ()
  get_height := .ok 0
  get_tip_hash := .ok (List.replicate 32 0)
  get_block_hash := fun _ => .ok (List.replicate 32 0)
  get_fee_estimates := .ok ⟨"FeeEstimates"⟩
  scripthash_txs := fun _ _ => .ok []
  get_blocks := fun _ => .ok []

/-- A client all of whose operations fail with the same error. -/
def failClient (e : String) : Client where
  get_tx := fun _ => .error e
  get_tx_info := fun _ => .error e
  get_txid_at_block_index := fun _ _ => .error e
  get_tx_status := fun _ => .error e
  get_header_by_hash := fun _ => .error e
  get_block_status := fun _ => .error e
  get_block_by_hash := fun _ => .error e
  get_merkle_proof := fun _ => .error e
  get_merkle_block := fun _ => .error e
  get_output_status := fun _ _ => .error e
  broadcast := fun _ => .error e
  get_height := .error e
  get_tip_hash := .error e
  get_block_hash := fun _ => .error e
  get_fee_estimates := .error e
  scripthash_txs := fun _ _ => .error e
  get_blocks := fun _ => .error e

/-- `noneClient`, but the get-tx operation finds `tx0`. -/
def txClient : Client := { noneClient with get_tx := fun _ => .ok (some tx0) }

/-- `noneClient`, but the get-block operation finds `block0`. -/
def blockClient : Client :=
  { noneClient with get_block_by_hash := fun _ => .ok (some block0) }

/-! ## Helper lemmas -/

theorem hexVal_lt_16 {c : Char} {n : Nat} (h : hexVal c = some n) : n < 16 := by
  unfold hexVal at h
  split_ifs at h <;>
    first
    | exact Option.noConfusion h
    | (injection h with h; omega)

theorem hexChar_hexVal {c : Char} {n : Nat} (hl : isLowerHex c = true)
    (h : hexVal c = some n) : hexChar n = c := by
  unfold isLowerHex at hl
  simp only [Bool.or_eq_true, Bool.and_eq_true, decide_eq_true_eq] at hl
  unfold hexVal at h
  split_ifs at h with h1 h2 h3
  · injection h with h; subst h
    unfold hexChar
    rw [if_pos (by omega)]
    have he : 48 + (c.toNat - 48) = c.toNat := by omega
    rw [he, Char.ofNat_toNat]
  · injection h with h; subst h
    unfold hexChar
    rw [if_neg (by omega)]
    have he : 87 + (c.toNat - 87) = c.toNat := by omega
    rw [he, Char.ofNat_toNat]
  · exfalso; omega

theorem hexEncode_decodePairs : ∀ (cs : List Char) (bs : List Nat),
    hexDecodePairs cs = some bs → (∀ c ∈ cs, isLowerHex c = true) →
    hexEncodeBytes bs = cs
  | [], bs, h, _ => by
    simp only [hexDecodePairs, Option.some.injEq] at h
    subst h; rfl
  | [_], bs, h, _ => by simp [hexDecodePairs] at h
  | c1 :: c2 :: rest, bs, h, hl => by
    simp only [hexDecodePairs] at h
    cases h1 : hexVal c1 with
    | none => rw [h1] at h; simp at h
    | some v1 =>
      cases h2 : hexVal c2 with
      | none => rw [h1, h2] at h; simp at h
      | some v2 =>
        cases h3 : hexDecodePairs rest with
        | none => rw [h1, h2, h3] at h; simp at h
        | some bs' =>
          rw [h1, h2, h3] at h
          simp only [Option.some.injEq] at h
          subst h
          have hv1 : v1 < 16 := hexVal_lt_16 h1
          have hv2 : v2 < 16 := hexVal_lt_16 h2
          have ih := hexEncode_decodePairs rest bs' h3
            (fun c hc => hl c (by simp [hc]))
          simp only [hexEncodeBytes, ih]
          have hdiv : (16 * v1 + v2) / 16 = v1 := by omega
          have hmod : (16 * v1 + v2) % 16 = v2 := by omega
          rw [hdiv, hmod]
          rw [hexChar_hexVal (hl c1 (by simp)) h1,
              hexChar_hexVal (hl c2 (by simp)) h2]

theorem formatHash_parseHash {s : String} {t : List Nat}
    (h : parseHash s = some t) (hl : ∀ c ∈ s.data, isLowerHex c = true) :
    formatHash t = s := by
  unfold parseHash at h
  split_ifs at h with hlen
  cases hd : hexDecodePairs s.data with
  | none => rw [hd] at h; simp at h
  | some bs =>
    rw [hd] at h
    simp only [Option.map_some', Option.some.injEq] at h
    subst h
    unfold formatHash
    rw [List.reverse_reverse, hexEncode_decodePairs s.data bs hd hl]

theorem ClientEq.eq {c1 c2 : Client} (h : ClientEq c1 c2) : c1 = c2 := by
  obtain ⟨h1, h2, h3, h4, h5, h6, h7, h8, h9, h10, h11, h12, h13, h14,
    h15, h16, h17⟩ := h
  cases c1
  cases c2
  simp only [Client.mk.injEq]
  refine ⟨funext h1, funext h2, funext fun h => funext (h3 h), funext h4,
    funext h5, funext h6, funext h7, funext h8, funext h9,
    funext fun t => funext (h10 t), funext h11, h12, h13, funext h14, h15,
    funext fun s => funext (h16 s), funext h17⟩

theorem length_filter_not_coinbase (l : List Transaction) :
    (l.filter (fun tx => !tx.coinbase)).length +
      (l.filter (fun tx => tx.coinbase)).length = l.length := by
  induction l with
  | nil => rfl
  | cons a l ih =>
    cases hpa : a.coinbase <;> simp [List.filter_cons, hpa] <;> omega

theorem scriptHashArm_calls (client : Client) (a : Address)
    (l : Option (List Nat)) :
    (scriptHashArm client a l).calls = [.scripthashTxs a.scriptPubkey l] := by
  simp only [scriptHashArm]
  cases hc : client.scripthash_txs (a.assumeChecked).script_pubkey l <;>
    simp [hc, Address.assumeChecked, Address.script_pubkey]

theorem getBlocksArm_calls (client : Client) (h : Option Nat) :
    (getBlocksArm client h).calls = [.getBlocks h] := by
  unfold getBlocksArm
  cases client.get_blocks h <;> rfl

/-! ## Claims -/

/-- C3: for every block fetched by `get-block` whose `N` transactions
contain exactly one coinbase, the dispatcher prints exactly `N - 1`
transaction identifiers (the coinbase is always excluded); the policy
is fixed in the code, hence identical on every run. -/
theorem getBlock_prints_noncoinbase_count (d : List Nat → Option Transaction)
    (client : Client) (s : String) (t : List Nat) (block : Block)
    (hs : parseHash s = some t)
    (hb : client.get_block_by_hash t = .ok (some block))
    (hcb : (block.txdata.filter (fun tx => tx.coinbase)).length = 1) :
    (dispatch d client (.getBlock s)).stdout.length =
      block.txdata.length - 1 := by
  simp only [dispatch, hs, hb, List.length_map]
  have h2 := length_filter_not_coinbase block.txdata
  omega

theorem getBlock_prints_noncoinbase_count_witness :
    (dispatch decodeTxNone blockClient (.getBlock zeros64)).stdout.length =
      block0.txdata.length - 1 :=
  getBlock_prints_noncoinbase_count decodeTxNone blockClient zeros64 zeroHash
    block0 (by decide) rfl (by decide)

/-- C4: for every transaction fetched by `get-tx`, the dispatcher
prints the transaction re-serialized to its canonical consensus hex
encoding (`serialize_hex`), `Debug`-quoted, and nothing else. -/
theorem getTx_prints_consensus_hex (d : List Nat → Option Transaction)
    (client : Client) (s : String) (t : List Nat) (tx : Transaction)
    (hs : parseHash s = some t) (h : client.get_tx t = .ok (some tx)) :
    dispatch d client (.getTx s) =
      ⟨.ok, [debugStr (serializeHex tx)], [.getTx t]⟩ := by
  simp [dispatch, hs, h]

theorem getTx_prints_consensus_hex_witness :
    dispatch decodeTxNone txClient (.getTx zeros64) =
      ⟨.ok, [debugStr (serializeHex tx0)], [.getTx zeroHash]⟩ :=
  getTx_prints_consensus_hex decodeTxNone txClient zeros64 zeroHash tx0
    (by decide) rfl

/-- C5 (amended): for every valid **lower-case** hexadecimal
transaction-id string, parsing it and formatting the result back to
hex yields the original string.  (The unrestricted claim fails: the
parser also accepts upper-case digits, which re-format to lower
case.) -/
theorem txid_roundtrip_lowercase (s : String) (t : List Nat)
    (h : parseHash s = some t) (hl : ∀ c ∈ s.data, isLowerHex c = true) :
    formatHash t = s :=
  formatHash_parseHash h hl

theorem txid_roundtrip_lowercase_witness : formatHash zeroHash = zeros64 :=
  txid_roundtrip_lowercase zeros64 zeroHash (by decide) (by decide)

/-- C5 counterexample: the 64-character string of `A`s is accepted by
the transaction-id parser, but formatting the parsed value back does
not return the original string (it returns the lower-case form). -/
theorem txid_roundtrip_counterexample :
    (parseHash ⟨List.replicate 64 'A'⟩).isSome = true ∧
    (parseHash ⟨List.replicate 64 'A'⟩).map formatHash ≠
      some (⟨List.replicate 64 'A'⟩ : String) := by
  decide

/-- C7: the process exits 0 exactly when the invocation succeeds; an
error propagated to `main` exits non-zero with `Error: ` and the
error's message on stderr, and a panic exits non-zero with the panic
message on stderr. -/
theorem exit_code_zero_iff_success (d : List Nat → Option Transaction)
    (mk : String → Client) (cli : Cli) :
    (exitCode (runMain d mk cli).outcome = 0 ↔
      (runMain d mk cli).outcome = .ok) ∧
    (∀ m, (runMain d mk cli).outcome = .err m →
      exitCode (runMain d mk cli).outcome ≠ 0 ∧
      errStream (runMain d mk cli).outcome = ["Error: " ++ m]) ∧
    (∀ m, (runMain d mk cli).outcome = .panicked m →
      exitCode (runMain d mk cli).outcome ≠ 0 ∧
      errStream (runMain d mk cli).outcome = [m]) := by
  generalize (runMain d mk cli).outcome = o
  cases o with
  | ok => simp [exitCode, errStream]
  | err m =>
    refine ⟨by simp [exitCode], ?_, ?_⟩
    · intro m' hm
      cases hm
      simp [exitCode, errStream]
    · intro m' hm
      cases hm
  | panicked m =>
    refine ⟨by simp [exitCode], ?_, ?_⟩
    · intro m' hm
      cases hm
    · intro m' hm
      cases hm
      simp [exitCode, errStream]

theorem exit_code_zero_iff_success_witness :
    exitCode (runMain decodeTxNone (fun _ => noneClient)
        ⟨.getHeight, none⟩).outcome ≠ 0 ∧
    errStream (runMain decodeTxNone (fun _ => noneClient)
        ⟨.getHeight, none⟩).outcome = ["must set esplora url"] :=
  (exit_code_zero_iff_success decodeTxNone (fun _ => noneClient)
      ⟨.getHeight, none⟩).2.2 "must set esplora url" rfl

/-- C9: the dispatcher's observable behaviour (outcome, printed
output, calls made) is a deterministic function of the parsed command
and the client's responses: two runs against clients answering every
request identically behave identically. -/
theorem dispatch_deterministic (d : List Nat → Option Transaction)
    (c1 c2 : Client) (h : ClientEq c1 c2) (cmd : Commands) :
    dispatch d c1 cmd = dispatch d c2 cmd := by
  rw [ClientEq.eq h]

theorem dispatch_deterministic_witness :
    dispatch decodeTxNone noneClient (.getTx zeros64) =
      dispatch decodeTxNone noneClient (.getTx zeros64) :=
  dispatch_deterministic decodeTxNone noneClient noneClient
    ⟨fun _ => rfl, fun _ => rfl, fun _ _ => rfl, fun _ => rfl, fun _ => rfl,
     fun _ => rfl, fun _ => rfl, fun _ => rfl, fun _ => rfl, fun _ _ => rfl,
     fun _ => rfl, rfl, rfl, fun _ => rfl, rfl, fun _ _ => rfl, fun _ => rfl⟩
    (.getTx zeros64)

/-- C10: for the script-hash history command, every syntactically
parsed address is accepted and queried as-is: whatever network the
address carries, `assume_checked` is applied without any validation
and the client is called with the address's script pubkey. -/
theorem scripthash_no_network_validation (d : List Nat → Option Transaction)
    (client : Client) (net : String) (spk : List Nat) (chk : Bool) :
    ((dispatch d client (.getScriptHashTxs ⟨net, spk, chk⟩ none)).calls =
      [.scripthashTxs spk none]) ∧
    (∀ s t, parseHash s = some t →
      (dispatch d client (.getScriptHashTxs ⟨net, spk, chk⟩ (some s))).calls =
        [.scripthashTxs spk (some t)]) := by
  constructor
  · simpa using scriptHashArm_calls client ⟨net, spk, chk⟩ none
  · intro s t hs
    simp only [dispatch, hs]
    simpa using scriptHashArm_calls client ⟨net, spk, chk⟩ (some t)

theorem scripthash_no_network_validation_witness :
    (dispatch decodeTxNone noneClient
        (.getScriptHashTxs ⟨"testnet", [0, 20], false⟩ (some zeros64))).calls =
      [.scripthashTxs [0, 20] (some zeroHash)] :=
  (scripthash_no_network_validation decodeTxNone noneClient "testnet"
      [0, 20] false).2 zeros64 zeroHash (by decide)

/-- C1 counterexample: with the same absent-resource client, `get-tx`
fails with the error `None` while `get-block` succeeds printing
nothing, so the NotFound outcome is not reported uniformly — it is a
mixture per endpoint. -/
theorem notFound_mixture_counterexample :
    (dispatch decodeTxNone noneClient (.getTx zeros64)).outcome =
      .err "None" ∧
    (dispatch decodeTxNone noneClient (.getBlock zeros64)).outcome = .ok ∧
    (dispatch decodeTxNone noneClient (.getBlock zeros64)).stdout = [] :=
  ⟨rfl, rfl, rfl⟩

/-- C1 (amended): NotFound reporting is fixed per endpoint but not
uniform across endpoints: `get-tx`, `get-tx-info`,
`get-tx-at-block-index` and `get-output-status` fail with the
dedicated error `None` on an absent result, while `get-block`
succeeds and prints nothing. -/
theorem notFound_handling_per_variant (d : List Nat → Option Transaction)
    (client : Client) (s : String) (t : List Nat) (ix : String) (n : Nat)
    (hs : parseHash s = some t) (hiu : parseUsize ix = some n)
    (hi64 : parseU64 ix = some n) :
    (client.get_tx t = .ok none →
      dispatch d client (.getTx s) = ⟨.err "None", [], [.getTx t]⟩) ∧
    (client.get_tx_info t = .ok none →
      dispatch d client (.getTxInfo s) = ⟨.err "None", [], [.getTxInfo t]⟩) ∧
    (client.get_txid_at_block_index t n = .ok none →
      dispatch d client (.getTxAtBlockIndex s ix) =
        ⟨.err "None", [], [.getTxidAtBlockIndex t n]⟩) ∧
    (client.get_output_status t n = .ok none →
      dispatch d client (.getOutputStatus s ix) =
        ⟨.err "None", [], [.getOutputStatus t n]⟩) ∧
    (client.get_block_by_hash t = .ok none →
      dispatch d client (.getBlock s) = ⟨.ok, [], [.getBlockByHash t]⟩) := by
  refine ⟨?_, ?_, ?_, ?_, ?_⟩ <;> intro h <;>
    simp [dispatch, hs, hiu, hi64, h]

theorem notFound_handling_per_variant_witness :
    dispatch decodeTxNone noneClient (.getTx zeros64) =
      ⟨.err "None", [], [.getTx zeroHash]⟩ :=
  (notFound_handling_per_variant decodeTxNone noneClient zeros64 zeroHash
      "0" 0 (by decide) (by decide) (by decide)).1 rfl

/-- C2: for every command variant, an argument string that fails to
parse into its semantic type makes the invocation fail (non-zero
exit) with no client/network call performed. -/
theorem parse_failure_fatal_local (d : List Nat → Option Transaction)
    (client : Client) (cmd : Commands) (h : argsOk d cmd = false) :
    (dispatch d client cmd).calls = [] ∧
    (dispatch d client cmd).outcome ≠ .ok ∧
    exitCode (dispatch d client cmd).outcome ≠ 0 := by
  cases cmd with
  | getTx id =>
    cases hp : parseHash id with
    | some t => simp [argsOk, hp] at h
    | none => simp [dispatch, hp, exitCode]
  | getTxInfo id =>
    cases hp : parseHash id with
    | some t => simp [argsOk, hp] at h
    | none => simp [dispatch, hp, exitCode]
  | getTxAtBlockIndex bh ix =>
    cases hp : parseHash bh with
    | none => simp [dispatch, hp, exitCode]
    | some t =>
      cases hi : parseUsize ix with
      | none => simp [dispatch, hp, hi, exitCode]
      | some i => simp [argsOk, hp, hi] at h
  | getTxStatus id =>
    cases hp : parseHash id with
    | some t => simp [argsOk, hp] at h
    | none => simp [dispatch, hp, exitCode]
  | getHeaderByHash bh =>
    cases hp : parseHash bh with
    | some t => simp [argsOk, hp] at h
    | none => simp [dispatch, hp, exitCode]
  | getBlockStatus bh =>
    cases hp : parseHash bh with
    | some t => simp [argsOk, hp] at h
    | none => simp [dispatch, hp, exitCode]
  | getBlock bh =>
    cases hp : parseHash bh with
    | some t => simp [argsOk, hp] at h
    | none => simp [dispatch, hp, exitCode]
  | getMerkleProof id =>
    cases hp : parseHash id with
    | some t => simp [argsOk, hp] at h
    | none => simp [dispatch, hp, exitCode]
  | getMerkleBlock id =>
    cases hp : parseHash id with
    | some t => simp [argsOk, hp] at h
    | none => simp [dispatch, hp, exitCode]
  | getOutputStatus id ix =>
    cases hp : parseHash id with
    | none => simp [dispatch, hp, exitCode]
    | some t =>
      cases hi : parseU64 ix with
      | none => simp [dispatch, hp, hi, exitCode]
      | some i => simp [argsOk, hp, hi] at h
  | broadcast hx =>
    cases hp : deserializeHex d hx with
    | some tx => simp [argsOk, hp] at h
    | none => simp [dispatch, hp, exitCode]
  | getHeight => simp [argsOk] at h
  | getTipHash => simp [argsOk] at h
  | getBlockHash hs =>
    cases hp : parseU32 hs with
    | some n => simp [argsOk, hp] at h
    | none => simp [dispatch, hp, exitCode]
  | getFeeEstimates => simp [argsOk] at h
  | getScriptHashTxs a ls =>
    cases ls with
    | none => simp [argsOk] at h
    | some s =>
      cases hp : parseHash s with
      | some t => simp [argsOk, hp] at h
      | none => simp [dispatch, hp, exitCode]
  | getBlocks hso =>
    cases hso with
    | none => simp [argsOk] at h
    | some s =>
      cases hp : parseU32 s with
      | some n => simp [argsOk, hp] at h
      | none => simp [dispatch, hp, exitCode]

theorem parse_failure_fatal_local_witness :
    (dispatch decodeTxNone noneClient (.broadcast "zz")).calls = [] ∧
    (dispatch decodeTxNone noneClient (.broadcast "zz")).outcome ≠ .ok ∧
    exitCode (dispatch decodeTxNone noneClient (.broadcast "zz")).outcome
      ≠ 0 :=
  parse_failure_fatal_local decodeTxNone noneClient (.broadcast "zz")
    (by decide)

/-- C6: for every command variant whose arguments parse successfully,
one invocation of the dispatcher performs exactly one client call. -/
theorem one_client_call_per_command (d : List Nat → Option Transaction)
    (client : Client) (cmd : Commands) (h : argsOk d cmd = true) :
    (dispatch d client cmd).calls.length = 1 := by
  cases cmd with
  | getTx id =>
    cases hp : parseHash id with
    | none => simp [argsOk, hp] at h
    | some t =>
      cases hc : client.get_tx t with
      | error e => simp [dispatch, hp, hc]
      | ok o => cases o <;> simp [dispatch, hp, hc]
  | getTxInfo id =>
    cases hp : parseHash id with
    | none => simp [argsOk, hp] at h
    | some t =>
      cases hc : client.get_tx_info t with
      | error e => simp [dispatch, hp, hc]
      | ok o => cases o <;> simp [dispatch, hp, hc]
  | getTxAtBlockIndex bh ix =>
    cases hp : parseHash bh with
    | none => simp [argsOk, hp] at h
    | some t =>
      cases hi : parseUsize ix with
      | none => simp [argsOk, hp, hi] at h
      | some i =>
        cases hc : client.get_txid_at_block_index t i with
        | error e => simp [dispatch, hp, hi, hc]
        | ok o => cases o <;> simp [dispatch, hp, hi, hc]
  | getTxStatus id =>
    cases hp : parseHash id with
    | none => simp [argsOk, hp] at h
    | some t => cases hc : client.get_tx_status t <;> simp [dispatch, hp, hc]
  | getHeaderByHash bh =>
    cases hp : parseHash bh with
    | none => simp [argsOk, hp] at h
    | some t =>
      cases hc : client.get_header_by_hash t <;> simp [dispatch, hp, hc]
  | getBlockStatus bh =>
    cases hp : parseHash bh with
    | none => simp [argsOk, hp] at h
    | some t =>
      cases hc : client.get_block_status t <;> simp [dispatch, hp, hc]
  | getBlock bh =>
    cases hp : parseHash bh with
    | none => simp [argsOk, hp] at h
    | some t =>
      cases hc : client.get_block_by_hash t with
      | error e => simp [dispatch, hp, hc]
      | ok o => cases o <;> simp [dispatch, hp, hc]
  | getMerkleProof id =>
    cases hp : parseHash id with
    | none => simp [argsOk, hp] at h
    | some t =>
      cases hc : client.get_merkle_proof t <;> simp [dispatch, hp, hc]
  | getMerkleBlock id =>
    cases hp : parseHash id with
    | none => simp [argsOk, hp] at h
    | some t =>
      cases hc : client.get_merkle_block t <;> simp [dispatch, hp, hc]
  | getOutputStatus id ix =>
    cases hp : parseHash id with
    | none => simp [argsOk, hp] at h
    | some t =>
      cases hi : parseU64 ix with
      | none => simp [argsOk, hp, hi] at h
      | some i =>
        cases hc : client.get_output_status t i with
        | error e => simp [dispatch, hp, hi, hc]
        | ok o => cases o <;> simp [dispatch, hp, hi, hc]
  | broadcast hx =>
    cases hp : deserializeHex d hx with
    | none => simp [argsOk, hp] at h
    | some tx => cases hc : client.broadcast tx <;> simp [dispatch, hp, hc]
  | getHeight => cases hc : client.get_height <;> simp [dispatch, hc]
  | getTipHash => cases hc : client.get_tip_hash <;> simp [dispatch, hc]
  | getBlockHash hs =>
    cases hp : parseU32 hs with
    | none => simp [argsOk, hp] at h
    | some n => cases hc : client.get_block_hash n <;> simp [dispatch, hp, hc]
  | getFeeEstimates =>
    cases hc : client.get_fee_estimates <;> simp [dispatch, hc]
  | getScriptHashTxs a ls =>
    cases ls with
    | none => simp [dispatch, scriptHashArm_calls]
    | some s =>
      cases hp : parseHash s with
      | none => simp [argsOk, hp] at h
      | some t => simp [dispatch, hp, scriptHashArm_calls]
  | getBlocks hso =>
    cases hso with
    | none => simp [dispatch, getBlocksArm_calls]
    | some s =>
      cases hp : parseU32 s with
      | none => simp [argsOk, hp] at h
      | some n => simp [dispatch, hp, getBlocksArm_calls]

theorem one_client_call_per_command_witness :
    (dispatch decodeTxNone noneClient (.getTx zeros64)).calls.length = 1 :=
  one_client_call_per_command decodeTxNone noneClient (.getTx zeros64)
    (by decide)

/-- C8 counterexample: two different operations failing with the same
transport error produce identical top-level reports — the propagated
error carries no tag naming the operation, so the reported error does
not identify which operation failed. -/
theorem error_tagging_counterexample :
    (dispatch decodeTxNone (failClient "HTTP 500")
        (.getTxStatus zeros64)).outcome =
      (dispatch decodeTxNone (failClient "HTTP 500")
        (.getHeaderByHash zeros64)).outcome ∧
    (dispatch decodeTxNone (failClient "HTTP 500")
        (.getTxStatus zeros64)).outcome = .err "HTTP 500" ∧
    errStream (dispatch decodeTxNone (failClient "HTTP 500")
        (.getTxStatus zeros64)).outcome =
      errStream (dispatch decodeTxNone (failClient "HTTP 500")
        (.getHeaderByHash zeros64)).outcome :=
  ⟨rfl, rfl, rfl⟩

/-- C8 (amended): for every command variant with well-formed
arguments, a client failure is propagated to the top level unchanged:
the dispatcher reports exactly the client's error, with nothing
printed and no tag identifying the operation added. -/
theorem error_propagated_unchanged (d : List Nat → Option Transaction)
    (e : String) (cmd : Commands) (h : argsOk d cmd = true) :
    (dispatch d (failClient e) cmd).outcome = .err e ∧
    (dispatch d (failClient e) cmd).stdout = [] := by
  cases cmd with
  | getTx id =>
    cases hp : parseHash id with
    | none => simp [argsOk, hp] at h
    | some t => simp [dispatch, hp, failClient]
  | getTxInfo id =>
    cases hp : parseHash id with
    | none => simp [argsOk, hp] at h
    | some t => simp [dispatch, hp, failClient]
  | getTxAtBlockIndex bh ix =>
    cases hp : parseHash bh with
    | none => simp [argsOk, hp] at h
    | some t =>
      cases hi : parseUsize ix with
      | none => simp [argsOk, hp, hi] at h
      | some i => simp [dispatch, hp, hi, failClient]
  | getTxStatus id =>
    cases hp : parseHash id with
    | none => simp [argsOk, hp] at h
    | some t => simp [dispatch, hp, failClient]
  | getHeaderByHash bh =>
    cases hp : parseHash bh with
    | none => simp [argsOk, hp] at h
    | some t => simp [dispatch, hp, failClient]
  | getBlockStatus bh =>
    cases hp : parseHash bh with
    | none => simp [argsOk, hp] at h
    | some t => simp [dispatch, hp, failClient]
  | getBlock bh =>
    cases hp : parseHash bh with
    | none => simp [argsOk, hp] at h
    | some t => simp [dispatch, hp, failClient]
  | getMerkleProof id =>
    cases hp : parseHash id with
    | none => simp [argsOk, hp] at h
    | some t => simp [dispatch, hp, failClient]
  | getMerkleBlock id =>
    cases hp : parseHash id with
    | none => simp [argsOk, hp] at h
    | some t => simp [dispatch, hp, failClient]
  | getOutputStatus id ix =>
    cases hp : parseHash id with
    | none => simp [argsOk, hp] at h
    | some t =>
      cases hi : parseU64 ix with
      | none => simp [argsOk, hp, hi] at h
      | some i => simp [dispatch, hp, hi, failClient]
  | broadcast hx =>
    cases hp : deserializeHex d hx with
    | none => simp [argsOk, hp] at h
    | some tx => simp [dispatch, hp, failClient]
  | getHeight => simp [dispatch, failClient]
  | getTipHash => simp [dispatch, failClient]
  | getBlockHash hs =>
    cases hp : parseU32 hs with
    | none => simp [argsOk, hp] at h
    | some n => simp [dispatch, hp, failClient]
  | getFeeEstimates => simp [dispatch, failClient]
  | getScriptHashTxs a ls =>
    cases ls with
    | none => simp [dispatch, scriptHashArm, failClient]
    | some s =>
      cases hp : parseHash s with
      | none => simp [argsOk, hp] at h
      | some t => simp [dispatch, hp, scriptHashArm, failClient]
  | getBlocks hso =>
    cases hso with
    | none => simp [dispatch, getBlocksArm, failClient]
    | some s =>
      cases hp : parseU32 s with
      | none => simp [argsOk, hp] at h
      | some n => simp [dispatch, hp, getBlocksArm, failClient]

theorem error_propagated_unchanged_witness :
    (dispatch decodeTxNone (failClient "boom")
        (.getTxStatus zeros64)).outcome = .err "boom" ∧
    (dispatch decodeTxNone (failClient "boom")
        (.getTxStatus zeros64)).stdout = [] :=
  error_propagated_unchanged decodeTxNone "boom" (.getTxStatus zeros64)
    (by decide)

end EsploraCli
